import Mathlib

/-!
Verification development for the LiveProof scoring pipeline (src/server.py).

The scoring core is embedded shallowly:
  * a Feature Mapping is a partial map from feature names to rationals
    (`FeatureMap`), mirroring the JSON `features` dictionary;
  * `extract_feature_vector`, `normalize_features`, `get_feature_importance`
    and `fallback_scoring` are direct translations of the functions of the
    same names in `server.py`;
  * the `verify` endpoint is embedded with the loaded model abstracted as an
    optional `predict_proba`-shaped capability that either returns the
    human-class probability or fails;
  * a second, dynamically-typed layer (`PyVal`, `verify_dyn`) models Python's
    runtime behaviour on non-numeric feature values, where comparisons and
    divisions raise `TypeError`.
-/

/-- Feature Mapping: the request's `features` dictionary, with rational
values.  A key absent from the dictionary is `none`. -/
abbrev FeatureMap := String → Option ℚ

/-- Python's `features.get(key, 0)`. -/
def fget (features : FeatureMap) (k : String) : ℚ := (features k).getD 0

/-- The canonical feature-name list (`feature_names`, server.py lines 20-28). -/
def feature_names : List String :=
  [ "avg_reaction_time"
  , "reaction_time_variance"
  , "task_accuracy"
  , "hesitation_time"
  , "cursor_path_length"
  , "cursor_direction_changes"
  , "speed_variance" ]

/-- Embedding of `extract_feature_vector` (server.py lines 41-51): the 1x7
row is modelled as a list of 7 rationals. -/
def extract_feature_vector (features : FeatureMap) : List ℚ :=
  [ fget features "avg_reaction_time"
  , fget features "reaction_time_variance"
  , fget features "task_accuracy"
  , fget features "hesitation_time"
  , fget features "cursor_path_length"
  , fget features "cursor_direction_changes"
  , fget features "speed_variance" ]

/-- Embedding of `normalize_features` (server.py lines 53-68): three
sequential in-place conditional rescalings, modelled by rebinding. -/
def normalize_features (X : List ℚ) : List ℚ :=
  let X1 := if 100 < X.getD 0 0 then
              (X.set 0 (X.getD 0 0 / 1000)).set 3 (X.getD 3 0 / 1000)
            else X
  let X2 := if 100000 < X1.getD 1 0 then X1.set 1 (X1.getD 1 0 / 1000000) else X1
  if 1000 < X2.getD 4 0 then X2.set 4 (X2.getD 4 0 / 1000) else X2

/-- One entry of the `feature_importance` list. -/
structure Contribution where
  name : String
  weight : ℚ
  positive : Bool
deriving DecidableEq

/-- The sort key of `feature_importance.sort(key=lambda x: abs(x['weight']),
reverse=True)`: `a` may come before `b` iff `|b.weight| ≤ |a.weight|`. -/
def contribLE (a b : Contribution) : Bool := decide (|b.weight| ≤ |a.weight|)

/-- The six contributions of `get_feature_importance` (server.py lines
72-168) in encounter order, before the final sort. -/
def rawContributions (features : FeatureMap) : List Contribution :=
  let rt := fget features "avg_reaction_time" / 1000
  let c1 : Contribution :=
    if rt < 2 then ⟨"avg_reaction_time", 22/100, true⟩
    else ⟨"avg_reaction_time", -12/100, false⟩
  let variance := fget features "reaction_time_variance"
  let c2 : Contribution :=
    if 100000 < variance then ⟨"reaction_time_variance", 18/100, true⟩
    else ⟨"reaction_time_variance", -15/100, false⟩
  let accuracy := fget features "task_accuracy"
  let c3 : Contribution :=
    if 6/10 < accuracy then ⟨"task_accuracy", 15/100, true⟩
    else ⟨"task_accuracy", -10/100, false⟩
  let direction_changes := fget features "cursor_direction_changes"
  let c4 : Contribution :=
    if 5 < direction_changes then ⟨"cursor_entropy", 12/100, true⟩
    else ⟨"cursor_entropy", 5/100, true⟩
  let speed_var := fget features "speed_variance"
  let c5 : Contribution :=
    if 1/100 < speed_var then ⟨"speed_variance", 14/100, true⟩
    else ⟨"speed_variance", -8/100, false⟩
  let hesitation := fget features "hesitation_time" / 1000
  let c6 : Contribution :=
    if 2/10 < hesitation ∧ hesitation < 3/2 then ⟨"hesitation_time", 10/100, true⟩
    else if hesitation < 2/10 then ⟨"hesitation_time", -6/100, false⟩
    else ⟨"hesitation_time", 3/100, true⟩
  [c1, c2, c3, c4, c5, c6]

/-- Embedding of `get_feature_importance` (server.py lines 70-173): builds
the six contributions and sorts them by descending absolute weight with a
stable sort, mirroring Python's `list.sort` with `reverse=True`.  The
`confidence` argument is accepted, as in the source, but never read. -/
def get_feature_importance (features : FeatureMap) (confidence : ℚ) :
    List Contribution :=
  (rawContributions features).mergeSort contribLE

/-- The running sum of `fallback_scoring` (server.py lines 239-271) before
the final clamp. -/
def fallback_pre (features : FeatureMap) : ℚ :=
  let score : ℚ := 1/2
  let rt := fget features "avg_reaction_time" / 1000
  let score := if rt < 2 then score + 15/100
               else if 5 < rt then score - 1/10 else score
  let variance := fget features "reaction_time_variance"
  let score := if 100000 < variance then score + 15/100 else score - 1/10
  let accuracy := fget features "task_accuracy"
  let score := if 6/10 < accuracy then score + 1/10 else score - 1/20
  let direction_changes := fget features "cursor_direction_changes"
  let score := if 5 < direction_changes then score + 1/10 else score
  let speed_var := fget features "speed_variance"
  if 1/100 < speed_var then score + 1/10 else score

/-- Embedding of `fallback_scoring` (server.py lines 237-273): the running
sum followed by the clamp `max(0.2, min(0.95, score))`. -/
def fallback_scoring (features : FeatureMap) : ℚ :=
  max (1/5) (min (19/20) (fallback_pre features))

/-- The verification result record assembled by `verify`, minus the
wall-clock timestamp.  `Feat` is the type of feature values (`ℚ` for the
numeric layer, `PyVal` for the dynamic layer). -/
structure VerifyResponse (Feat : Type) where
  sessionId : Option String
  confidence : ℚ
  featureImportance : List Contribution
  features : String → Option Feat
  modelUsed : String

/-- Embedding of the `verify` endpoint (server.py lines 184-228) on numeric
inputs.  The loaded model is abstracted as an optional capability taking the
normalized vector and either returning the human-class probability
(`predict_proba(X)[0][1]`) or failing (`Except.error`), in which case the
code falls back to `fallback_scoring` for this request. -/
def verify (model : Option (List ℚ → Except Unit ℚ)) (sessionId : Option String)
    (features : FeatureMap) : VerifyResponse ℚ :=
  let X := extract_feature_vector features
  let X := normalize_features X
  let confidence : ℚ :=
    match model with
    | some predict =>
        match predict X with
        | .ok p => p
        | .error _ => fallback_scoring features
    | none => fallback_scoring features
  { sessionId := sessionId
    confidence := confidence
    featureImportance := get_feature_importance features confidence
    features := features
    modelUsed := if model.isSome then "ML" else "Rule-based" }

/-- The empty Feature Mapping: every feature absent. -/
def emptyMap : FeatureMap := fun _ => none

/-- The human-like sample mapping of the spec's scenario. -/
def humanSample : FeatureMap := fun k =>
  if k = "avg_reaction_time" then some 1800
  else if k = "reaction_time_variance" then some 500000
  else if k = "task_accuracy" then some (85/100)
  else if k = "hesitation_time" then some 600
  else if k = "cursor_path_length" then some 500
  else if k = "cursor_direction_changes" then some 15
  else if k = "speed_variance" then some (5/100)
  else none

/-- A loaded model whose probability call always raises. -/
def failingPredict : List ℚ → Except Unit ℚ := fun _ => .error ()

/-- C1: the claim says `modelUsed` names the strategy that actually produced
the score, being "Rule-based" whenever the fallback scored — including when
a model is loaded but its probability call raises.  The code instead
computes `modelUsed` from `model is not None` alone (server.py line 223):
with a loaded model whose probability call raises, the confidence is
supplied by `fallback_scoring`, yet `modelUsed` is "ML", not "Rule-based". -/
theorem verify_modelUsed_mismatch_on_predict_failure :
    (verify (some failingPredict) none emptyMap).confidence
        = fallback_scoring emptyMap ∧
    (verify (some failingPredict) none emptyMap).modelUsed = "ML" ∧
    (verify (some failingPredict) none emptyMap).modelUsed ≠ "Rule-based" := by
  refine ⟨rfl, rfl, ?_⟩
  decide

/-- C2 counterexample: on the empty mapping the rule-based score is not
0.35, because the reaction-time branch (0/1000 < 2) also adds +0.15. -/
theorem fallback_scoring_empty_ne_035 :
    fallback_scoring emptyMap ≠ 35/100 := by
  norm_num [fallback_scoring, fallback_pre, fget, emptyMap]

/-- C2 amended: on the empty mapping the rule-based score is exactly 0.50,
computed as 0.5 + 0.15 (reaction-time branch, 0/1000 < 2) − 0.10 (variance
branch, 0 ≤ 100000) − 0.05 (accuracy ≤ 0.6), with no other adjustment and
no clamping needed. -/
theorem fallback_scoring_empty_eq_half :
    fallback_pre emptyMap = 1/2 + 15/100 - 1/10 - 1/20 ∧
    fallback_scoring emptyMap = 1/2 := by
  constructor
  · norm_num [fallback_pre, fget, emptyMap]
  · norm_num [fallback_scoring, fallback_pre, fget, emptyMap]

/-- C3: the rule-based strategy is total (it is a Lean function) and its
result always lies in the closed interval [0.2, 0.95], for every Feature
Mapping — including the empty one and arbitrarily large values. -/
theorem fallback_scoring_mem_Icc (features : FeatureMap) :
    1/5 ≤ fallback_scoring features ∧ fallback_scoring features ≤ 19/20 := by
  unfold fallback_scoring
  exact ⟨le_max_left _ _, max_le (by norm_num) (min_le_left _ _)⟩

/-- C9: on the human-like sample with no artifact loaded, the rule-based
pre-clamp sum is 1.10 > 0.95, the returned confidence is exactly 0.95, and
`modelUsed` is "Rule-based". -/
theorem human_sample_scenario :
    fallback_pre humanSample = 11/10 ∧
    19/20 < fallback_pre humanSample ∧
    fallback_scoring humanSample = 19/20 ∧
    (verify none none humanSample).confidence = 19/20 ∧
    (verify none none humanSample).modelUsed = "Rule-based" := by
  have hpre : fallback_pre humanSample = 11/10 := by
    norm_num +decide [fallback_pre, fget, humanSample]
  have hscore : fallback_scoring humanSample = 19/20 := by
    rw [fallback_scoring, hpre]; norm_num
  exact ⟨hpre, by rw [hpre]; norm_num, hscore, hscore, rfl⟩

/-- Sample mapping for the Builder witness: `task_accuracy` present, all
other keys absent. -/
def accuracyOnly : FeatureMap := fun k =>
  if k = "task_accuracy" then some (85/100) else none

/-- C4: the Feature Vector Builder is total, returns exactly 7 elements in
the canonical `feature_names` order; an absent key yields 0 in its slot and
a present key's value passes through unchanged. -/
theorem extract_feature_vector_spec (m : FeatureMap) :
    (extract_feature_vector m).length = 7 ∧
    (∀ i : Fin 7,
        (extract_feature_vector m).getD i 0 = fget m (feature_names.getD i "")) ∧
    (∀ i : Fin 7, m (feature_names.getD i "") = none →
        (extract_feature_vector m).getD i 0 = 0) ∧
    (∀ i : Fin 7, ∀ v : ℚ, m (feature_names.getD i "") = some v →
        (extract_feature_vector m).getD i 0 = v) := by
  refine ⟨rfl, ?_, ?_, ?_⟩
  · intro i; fin_cases i <;> rfl
  · intro i h; fin_cases i <;>
      simp_all [extract_feature_vector, fget, feature_names]
  · intro i v h; fin_cases i <;>
      simp_all [extract_feature_vector, fget, feature_names]

/-- C4 witness: on `accuracyOnly`, slot 2 carries the present value 0.85
and slot 0 (absent key) carries 0. -/
theorem extract_feature_vector_spec_witness :
    (extract_feature_vector accuracyOnly).getD 2 0 = 85/100 ∧
    (extract_feature_vector accuracyOnly).getD 0 0 = 0 :=
  ⟨(extract_feature_vector_spec accuracyOnly).2.2.2 ⟨2, by norm_num⟩ (85/100)
      (by simp +decide [accuracyOnly, feature_names]),
   (extract_feature_vector_spec accuracyOnly).2.2.1 ⟨0, by norm_num⟩
      (by simp +decide [accuracyOnly, feature_names])⟩

/-- C5: the Normalizer returns its input unchanged whenever slot 0 ≤ 100,
slot 1 ≤ 100000 and slot 4 ≤ 1000 — every comparison is strict, so values
exactly at a threshold are not rescaled. -/
theorem normalize_features_id_below_thresholds (X : List ℚ)
    (h0 : X.getD 0 0 ≤ 100) (h1 : X.getD 1 0 ≤ 100000)
    (h4 : X.getD 4 0 ≤ 1000) : normalize_features X = X := by
  simp only [normalize_features]
  rw [if_neg (not_lt.mpr h0), if_neg (not_lt.mpr h1), if_neg (not_lt.mpr h4)]

/-- C5 witness: the vector sitting exactly at all three thresholds
(slot 0 = 100, slot 1 = 100000, slot 4 = 1000) is returned unchanged. -/
theorem normalize_features_id_below_thresholds_witness :
    normalize_features [100, 100000, 0, 0, 1000, 0, 0]
      = [100, 100000, 0, 0, 1000, 0, 0] :=
  normalize_features_id_below_thresholds _ (by norm_num) (by norm_num)
    (by norm_num)

/-- C6: full characterization of the Normalizer on a 7-element vector.  The
three checks are independent: slot 0 > 100 rescales slots 0 and 3 (slot 3
regardless of its own value, and only under slot 0's condition),
slot 1 > 100000 rescales slot 1, slot 4 > 1000 rescales slot 4, and slots
2, 5, 6 are never modified. -/
theorem normalize_features_characterization (a b c d e f g : ℚ) :
    normalize_features [a, b, c, d, e, f, g] =
      [ if 100 < a then a / 1000 else a
      , if 100000 < b then b / 1000000 else b
      , c
      , if 100 < a then d / 1000 else d
      , if 1000 < e then e / 1000 else e
      , f
      , g ] := by
  by_cases h0 : (100:ℚ) < a <;> by_cases h1 : (100000:ℚ) < b <;>
    by_cases h4 : (1000:ℚ) < e <;>
    simp [normalize_features, h0, h1, h4]

/-- C8: the Explainability Ranker is a pure function of the raw Feature
Mapping alone — its output is unchanged by the confidence value passed in,
and the `featureImportance` field of the verification result does not
depend on which model state (and hence which strategy) produced the
score, nor on the session identifier. -/
theorem get_feature_importance_ignores_confidence :
    (∀ (m : FeatureMap) (c₁ c₂ : ℚ),
        get_feature_importance m c₁ = get_feature_importance m c₂) ∧
    (∀ (model₁ model₂ : Option (List ℚ → Except Unit ℚ))
        (sid₁ sid₂ : Option String) (m : FeatureMap),
        (verify model₁ sid₁ m).featureImportance
          = (verify model₂ sid₂ m).featureImportance) :=
  ⟨fun _ _ _ => rfl, fun _ _ _ _ _ => rfl⟩

/-- The sort relation is transitive. -/
theorem contribLE_trans : ∀ a b c : Contribution,
    contribLE a b = true → contribLE b c = true → contribLE a c = true := by
  intro a b c hab hbc
  simp only [contribLE, decide_eq_true_eq] at hab hbc ⊢
  exact le_trans hbc hab

/-- The sort relation is total. -/
theorem contribLE_total : ∀ a b : Contribution,
    (contribLE a b || contribLE b a) = true := by
  intro a b
  simp only [contribLE, Bool.or_eq_true, decide_eq_true_eq]
  exact le_total _ _

/-- Every pre-sort contribution's positive flag agrees with the sign of its
weight. -/
theorem rawContributions_positive (m : FeatureMap) :
    ∀ x ∈ rawContributions m, (x.positive = true ↔ 0 ≤ x.weight) := by
  intro x hx
  simp only [rawContributions, List.mem_cons, List.not_mem_nil, or_false] at hx
  rcases hx with h | h | h | h | h | h <;> subst h <;> split_ifs <;> norm_num

/-- The cursor-entropy contribution is among the pre-sort contributions. -/
theorem entropy_mem_rawContributions (m : FeatureMap) :
    (if 5 < fget m "cursor_direction_changes" then
        (⟨"cursor_entropy", 12/100, true⟩ : Contribution)
      else ⟨"cursor_entropy", 5/100, true⟩) ∈ rawContributions m := by
  simp only [rawContributions, List.mem_cons]
  tauto

/-- C7: for every Feature Mapping and any confidence value, the
Explainability Ranker returns exactly 6 contributions, sorted in
non-increasing order of absolute weight, with each positive flag equal to
(weight ≥ 0); the cursor_entropy entry weighs +0.12 when
cursor_direction_changes > 5 and +0.05 otherwise, positive in both
branches; and ties keep encounter order: any two contributions of equal
absolute weight that occur in that order in the pre-sort list still occur
in that order in the output (stable sort). -/
theorem get_feature_importance_spec (m : FeatureMap) (c : ℚ) :
    (get_feature_importance m c).length = 6 ∧
    (get_feature_importance m c).Pairwise
      (fun a b => |b.weight| ≤ |a.weight|) ∧
    (∀ x ∈ get_feature_importance m c, (x.positive = true ↔ 0 ≤ x.weight)) ∧
    (∃ x ∈ get_feature_importance m c, x.name = "cursor_entropy" ∧
        x.weight = (if 5 < fget m "cursor_direction_changes" then 12/100
                    else 5/100) ∧
        x.positive = true) ∧
    (∀ a b : Contribution, |a.weight| = |b.weight| →
        [a, b].Sublist (rawContributions m) →
        [a, b].Sublist (get_feature_importance m c)) := by
  refine ⟨?_, ?_, ?_, ?_, ?_⟩
  · simp only [get_feature_importance, List.length_mergeSort]
    rfl
  · simp only [get_feature_importance]
    exact (List.sorted_mergeSort contribLE_trans contribLE_total
      (rawContributions m)).imp (fun h => by
        simpa [contribLE] using h)
  · intro x hx
    simp only [get_feature_importance, List.mem_mergeSort] at hx
    exact rawContributions_positive m x hx
  · refine ⟨if 5 < fget m "cursor_direction_changes" then
        (⟨"cursor_entropy", 12/100, true⟩ : Contribution)
      else ⟨"cursor_entropy", 5/100, true⟩, ?_, ?_, ?_, ?_⟩
    · simp only [get_feature_importance, List.mem_mergeSort]
      exact entropy_mem_rawContributions m
    · split_ifs <;> rfl
    · split_ifs <;> rfl
    · split_ifs <;> rfl
  · intro a b hw hs
    simp only [get_feature_importance]
    exact List.pair_sublist_mergeSort contribLE_trans contribLE_total
      (by simp [contribLE, hw.ge]) hs

/-- Sample mapping with a tie in absolute weight: `task_accuracy` absent
(weight −0.10, encountered third) and `hesitation_time` = 500 ms (weight
+0.10, encountered sixth). -/
def tieSample : FeatureMap := fun k =>
  if k = "hesitation_time" then some 500 else none

/-- C7 witness: on `tieSample`, the ranker's output has the tied pair
(task_accuracy, −0.10) before (hesitation_time, +0.10), in encounter
order, and the avg_reaction_time entry's flag matches its sign. -/
theorem get_feature_importance_spec_witness :
    ((⟨"avg_reaction_time", 22/100, true⟩ : Contribution).positive = true ↔
        (0:ℚ) ≤ 22/100) ∧
    [(⟨"task_accuracy", -10/100, false⟩ : Contribution),
        ⟨"hesitation_time", 10/100, true⟩].Sublist
      (get_feature_importance tieSample 0) := by
  have hraw : rawContributions tieSample =
      [ ⟨"avg_reaction_time", 22/100, true⟩
      , ⟨"reaction_time_variance", -15/100, false⟩
      , ⟨"task_accuracy", -10/100, false⟩
      , ⟨"cursor_entropy", 5/100, true⟩
      , ⟨"speed_variance", -8/100, false⟩
      , ⟨"hesitation_time", 10/100, true⟩ ] := by
    norm_num +decide [rawContributions, fget, tieSample]
  constructor
  · refine (get_feature_importance_spec tieSample 0).2.2.1 _ ?_
    simp only [get_feature_importance, List.mem_mergeSort, hraw]
    simp
  · refine (get_feature_importance_spec tieSample 0).2.2.2.2 _ _ (by norm_num) ?_
    rw [hraw]
    exact .cons _ (.cons _ (.cons₂ _ (.cons _ (.cons _ (.cons₂ _ .slnil)))))

/-- A Python feature value as it arrives in the JSON request: either a
number (modelled as a rational) or some non-numeric value (string, null,
list, ...), whose arithmetic and comparisons raise `TypeError`. -/
inductive PyVal where
  | num (q : ℚ)
  | nonnum
deriving DecidableEq

/-- A Feature Mapping whose values may be non-numeric. -/
abbrev DynFeatureMap := String → Option PyVal

/-- Python's `features.get(key, 0)` on a dynamically-typed mapping. -/
def dget (features : DynFeatureMap) (k : String) : PyVal :=
  (features k).getD (.num 0)

/-- Python `x / d`: raises `TypeError` when `x` is non-numeric. -/
def pyDiv : PyVal → ℚ → Except Unit ℚ
  | .num q, d => .ok (q / d)
  | .nonnum, _ => .error ()

/-- Python `x > c`: raises `TypeError` when `x` is non-numeric. -/
def pyGT : PyVal → ℚ → Except Unit Bool
  | .num q, c => .ok (decide (c < q))
  | .nonnum, _ => .error ()

theorem except_bind_ok {α β ε : Type} (a : α) (f : α → Except ε β) :
    (Except.ok a >>= f : Except ε β) = f a := rfl

theorem except_bind_error {α β ε : Type} (e : ε) (f : α → Except ε β) :
    ((Except.error e : Except ε α) >>= f : Except ε β) = Except.error e := rfl

theorem except_pure_eq {α ε : Type} (a : α) :
    (pure a : Except ε α) = Except.ok a := rfl

/-- Embedding of `extract_feature_vector` on dynamically-typed values: a
present value is placed in its slot unchanged, numeric or not. -/
def extract_feature_vector_dyn (features : DynFeatureMap) : List PyVal :=
  [ dget features "avg_reaction_time"
  , dget features "reaction_time_variance"
  , dget features "task_accuracy"
  , dget features "hesitation_time"
  , dget features "cursor_path_length"
  , dget features "cursor_direction_changes"
  , dget features "speed_variance" ]

/-- Embedding of `normalize_features` on dynamically-typed values: each
comparison or division raises when its operand is non-numeric, and the
raise propagates out of the function. -/
def normalize_features_dyn (X : List PyVal) : Except Unit (List PyVal) := do
  let b0 ← pyGT (X.getD 0 (.num 0)) 100
  let X1 ←
    if b0 then do
      let v0 ← pyDiv (X.getD 0 (.num 0)) 1000
      let v3 ← pyDiv (X.getD 3 (.num 0)) 1000
      pure ((X.set 0 (.num v0)).set 3 (.num v3))
    else pure X
  let b1 ← pyGT (X1.getD 1 (.num 0)) 100000
  let X2 ←
    if b1 then do
      let v1 ← pyDiv (X1.getD 1 (.num 0)) 1000000
      pure (X1.set 1 (.num v1))
    else pure X1
  let b4 ← pyGT (X2.getD 4 (.num 0)) 1000
  if b4 then do
    let v4 ← pyDiv (X2.getD 4 (.num 0)) 1000
    pure (X2.set 4 (.num v4))
  else pure X2

/-- Embedding of `fallback_scoring` on dynamically-typed values. -/
def fallback_scoring_dyn (features : DynFeatureMap) : Except Unit ℚ := do
  let score : ℚ := 1/2
  let rt ← pyDiv (dget features "avg_reaction_time") 1000
  let score := if rt < 2 then score + 15/100
               else if 5 < rt then score - 1/10 else score
  let bvar ← pyGT (dget features "reaction_time_variance") 100000
  let score := if bvar then score + 15/100 else score - 1/10
  let bacc ← pyGT (dget features "task_accuracy") (6/10)
  let score := if bacc then score + 1/10 else score - 1/20
  let bdc ← pyGT (dget features "cursor_direction_changes") 5
  let score := if bdc then score + 1/10 else score
  let bsv ← pyGT (dget features "speed_variance") (1/100)
  let score := if bsv then score + 1/10 else score
  pure (max (1/5) (min (19/20) score))

/-- Embedding of `get_feature_importance` on dynamically-typed values. -/
def get_feature_importance_dyn (features : DynFeatureMap) (confidence : ℚ) :
    Except Unit (List Contribution) := do
  let rt ← pyDiv (dget features "avg_reaction_time") 1000
  let c1 : Contribution :=
    if rt < 2 then ⟨"avg_reaction_time", 22/100, true⟩
    else ⟨"avg_reaction_time", -12/100, false⟩
  let bvar ← pyGT (dget features "reaction_time_variance") 100000
  let c2 : Contribution :=
    if bvar then ⟨"reaction_time_variance", 18/100, true⟩
    else ⟨"reaction_time_variance", -15/100, false⟩
  let bacc ← pyGT (dget features "task_accuracy") (6/10)
  let c3 : Contribution :=
    if bacc then ⟨"task_accuracy", 15/100, true⟩
    else ⟨"task_accuracy", -10/100, false⟩
  let bdc ← pyGT (dget features "cursor_direction_changes") 5
  let c4 : Contribution :=
    if bdc then ⟨"cursor_entropy", 12/100, true⟩
    else ⟨"cursor_entropy", 5/100, true⟩
  let bsv ← pyGT (dget features "speed_variance") (1/100)
  let c5 : Contribution :=
    if bsv then ⟨"speed_variance", 14/100, true⟩
    else ⟨"speed_variance", -8/100, false⟩
  let hesitation ← pyDiv (dget features "hesitation_time") 1000
  let c6 : Contribution :=
    if 2/10 < hesitation ∧ hesitation < 3/2 then ⟨"hesitation_time", 10/100, true⟩
    else if hesitation < 2/10 then ⟨"hesitation_time", -6/100, false⟩
    else ⟨"hesitation_time", 3/100, true⟩
  pure (([c1, c2, c3, c4, c5, c6]).mergeSort contribLE)

/-- Embedding of the `verify` endpoint on dynamically-typed values.  The
outer `try/except` of the endpoint (server.py lines 187, 230-235) is the
`Except`: an `error` result is the request-level 500 response. -/
def verify_dyn (model : Option (List PyVal → Except Unit ℚ))
    (sessionId : Option String) (features : DynFeatureMap) :
    Except Unit (VerifyResponse PyVal) := do
  let X := extract_feature_vector_dyn features
  let X ← normalize_features_dyn X
  let confidence ←
    match model with
    | some predict =>
        match predict X with
        | .ok p => pure p
        | .error _ => fallback_scoring_dyn features
    | none => fallback_scoring_dyn features
  let fi ← get_feature_importance_dyn features confidence
  pure { sessionId := sessionId
         confidence := confidence
         featureImportance := fi
         features := features
         modelUsed := if model.isSome then "ML" else "Rule-based" }

/-- A mapping whose `avg_reaction_time` is a non-numeric value. -/
def badSample : DynFeatureMap := fun k =>
  if k = "avg_reaction_time" then some .nonnum else none

/-- C10 counterexample: on a mapping with a non-numeric
`avg_reaction_time`, the Builder does not substitute 0 — the non-numeric
value occupies slot 0 — and the pipeline raises a request-level error (the
500 branch) instead of yielding a score. -/
theorem nonnumeric_value_errors :
    (extract_feature_vector_dyn badSample).getD 0 (.num 0) ≠ .num 0 ∧
    verify_dyn none none badSample = .error () := by
  constructor
  · decide
  · rfl

/-- On a mapping with no non-numeric values, every lookup is a number. -/
theorem dget_num {m : DynFeatureMap} (h : ∀ k, m k ≠ some PyVal.nonnum)
    (k : String) : ∃ q, dget m k = .num q := by
  cases hk : m k with
  | none => exact ⟨0, by simp [dget, hk]⟩
  | some v =>
    cases v with
    | num q => exact ⟨q, by simp [dget, hk]⟩
    | nonnum => exact absurd hk (h k)

/-- The dynamic Normalizer succeeds on any all-numeric 7-vector. -/
theorem normalize_features_dyn_ok (a b c d e f g : ℚ) :
    ∃ Y, normalize_features_dyn
        [.num a, .num b, .num c, .num d, .num e, .num f, .num g]
      = .ok Y := by
  simp only [normalize_features_dyn, List.getD_cons_zero, List.getD_cons_succ,
    pyGT, pyDiv, except_bind_ok, except_pure_eq, List.set_cons_zero,
    List.set_cons_succ]
  split_ifs <;> exact ⟨_, rfl⟩

/-- The dynamic rule-based scorer succeeds on any all-numeric mapping. -/
theorem fallback_scoring_dyn_ok {m : DynFeatureMap}
    (h : ∀ k, m k ≠ some PyVal.nonnum) :
    ∃ q, fallback_scoring_dyn m = .ok q := by
  obtain ⟨q0, h0⟩ := dget_num h "avg_reaction_time"
  obtain ⟨q1, h1⟩ := dget_num h "reaction_time_variance"
  obtain ⟨q2, h2⟩ := dget_num h "task_accuracy"
  obtain ⟨q5, h5⟩ := dget_num h "cursor_direction_changes"
  obtain ⟨q6, h6⟩ := dget_num h "speed_variance"
  simp only [fallback_scoring_dyn, h0, h1, h2, h5, h6, pyDiv, pyGT,
    except_bind_ok, except_pure_eq]
  exact ⟨_, rfl⟩

/-- The dynamic Explainability Ranker succeeds on any all-numeric mapping. -/
theorem get_feature_importance_dyn_ok {m : DynFeatureMap}
    (h : ∀ k, m k ≠ some PyVal.nonnum) (c : ℚ) :
    ∃ l, get_feature_importance_dyn m c = .ok l := by
  obtain ⟨q0, h0⟩ := dget_num h "avg_reaction_time"
  obtain ⟨q1, h1⟩ := dget_num h "reaction_time_variance"
  obtain ⟨q2, h2⟩ := dget_num h "task_accuracy"
  obtain ⟨q3, h3⟩ := dget_num h "hesitation_time"
  obtain ⟨q5, h5⟩ := dget_num h "cursor_direction_changes"
  obtain ⟨q6, h6⟩ := dget_num h "speed_variance"
  simp only [get_feature_importance_dyn, h0, h1, h2, h3, h5, h6, pyDiv, pyGT,
    except_bind_ok, except_pure_eq]
  exact ⟨_, rfl⟩

/-- C10 amended: for every Feature Mapping in which some feature values are
missing but every present value is numeric, the Builder substitutes 0 for
the missing slots and the pipeline still yields a score (an `ok` response),
whatever model is loaded; a non-numeric value, by contrast, is passed
through by the Builder and makes the request fail (see
`nonnumeric_value_errors`). -/
theorem numeric_mapping_yields_score
    (model : Option (List PyVal → Except Unit ℚ)) (sid : Option String)
    (m : DynFeatureMap) (hnum : ∀ k, m k ≠ some PyVal.nonnum) :
    (∃ r, verify_dyn model sid m = .ok r) ∧
    (∀ i : Fin 7, m (feature_names.getD i "") = none →
        (extract_feature_vector_dyn m).getD i (.num 0) = .num 0) := by
  constructor
  · obtain ⟨q0, h0⟩ := dget_num hnum "avg_reaction_time"
    obtain ⟨q1, h1⟩ := dget_num hnum "reaction_time_variance"
    obtain ⟨q2, h2⟩ := dget_num hnum "task_accuracy"
    obtain ⟨q3, h3⟩ := dget_num hnum "hesitation_time"
    obtain ⟨q4, h4⟩ := dget_num hnum "cursor_path_length"
    obtain ⟨q5, h5⟩ := dget_num hnum "cursor_direction_changes"
    obtain ⟨q6, h6⟩ := dget_num hnum "speed_variance"
    have hX : extract_feature_vector_dyn m =
        [.num q0, .num q1, .num q2, .num q3, .num q4, .num q5, .num q6] := by
      simp [extract_feature_vector_dyn, h0, h1, h2, h3, h4, h5, h6]
    obtain ⟨Y, hY⟩ := normalize_features_dyn_ok q0 q1 q2 q3 q4 q5 q6
    obtain ⟨s, hs⟩ := fallback_scoring_dyn_ok hnum
    cases model with
    | none =>
      obtain ⟨fi, hfi⟩ := get_feature_importance_dyn_ok hnum s
      simp only [verify_dyn, hX, hY, hs, hfi, except_bind_ok, except_pure_eq]
      exact ⟨_, rfl⟩
    | some predict =>
      cases hp : predict Y with
      | ok p =>
        obtain ⟨fi, hfi⟩ := get_feature_importance_dyn_ok hnum p
        simp only [verify_dyn, hX, hY, hp, hfi, except_bind_ok, except_pure_eq]
        exact ⟨_, rfl⟩
      | error e =>
        obtain ⟨fi, hfi⟩ := get_feature_importance_dyn_ok hnum s
        simp only [verify_dyn, hX, hY, hp, hs, hfi, except_bind_ok,
          except_pure_eq]
        exact ⟨_, rfl⟩
  · intro i h
    fin_cases i <;> simp_all [extract_feature_vector_dyn, dget, feature_names]

/-- The all-absent dynamically-typed mapping. -/
def noneMap : DynFeatureMap := fun _ => none

/-- C10 amended witness: with no model and every feature absent the
pipeline yields a score, and the absent `avg_reaction_time` slot holds 0. -/
theorem numeric_mapping_yields_score_witness :
    (∃ r, verify_dyn none none noneMap = .ok r) ∧
    (extract_feature_vector_dyn noneMap).getD 0 (.num 0) = .num 0 :=
  ⟨(numeric_mapping_yields_score none none noneMap
      (fun _ h => Option.noConfusion h)).1,
   (numeric_mapping_yields_score none none noneMap
      (fun _ h => Option.noConfusion h)).2 ⟨0, by norm_num⟩ rfl⟩
